import Mathlib

/-!
Verification development for the pufzin repository: a shallow embedding of
the device registry state machine (contracts/DeviceRegistry.sol), the PUF
response / commitment model (utils/PUFSimulator.js, test/experiments.js),
the DeviceAuth circuit statement (circuits/templates/DeviceAuth.circom),
and the time-bounded proof cache (scripts/run_experiments.js), together
with theorems settling the specified behavioural properties.

Conventions of the embedding:
- Solidity bytes32 and uint256 values are modelled as Nat.  The cast
  uint256(deviceId) performed by the contract is the identity on the
  underlying 256-bit value, so it disappears in the model.
- Solidity mappings are total functions with the all-zero default
  for absent keys, exactly as the EVM storage model provides.
- A reverting call (a failed require) is an Except.error carrying a
  constructor named after the require message; EVM revert semantics mean
  the pre-state is kept, which execState makes explicit.
- block.timestamp and msg.sender are passed as explicit parameters.
  On any real chain block.timestamp is positive; theorems that need this
  take it as a hypothesis.
- The contract inherits Pausable but never exposes a pause entry point,
  so the paused flag is carried in the state and checked by every
  whenNotPaused function, and no operation ever sets it.
- The Groth16 verifier (DeviceVerifier / generated Groth16Verifier) is an
  external cryptographic artifact; verifyProof is an abstract function
  parameter from proof data and public inputs to Bool.
-/

/-- BN254 scalar field modulus used throughout the repository
(maxField in utils/PUFSimulator.js). -/
def maxField : Nat :=
  21888242871839275222246405745257275088548364400416034343698204186575808495617

/-- struct Device of contracts/DeviceRegistry.sol. -/
structure Device where
  deviceId : Nat
  pubKeyHash : Nat
  helperData : List Nat
  registeredAt : Nat
  isActive : Bool
  owner : Nat
deriving Repr, DecidableEq

/-- All-zero Device, the EVM mapping default for absent keys. -/
def Device.default0 : Device :=
  { deviceId := 0, pubKeyHash := 0, helperData := [], registeredAt := 0,
    isActive := false, owner := 0 }

/-- struct EncryptedTransaction of contracts/DeviceRegistry.sol. -/
structure EncryptedTransaction where
  deviceId : Nat
  dataHash : Nat
  encryptedData : List Nat
  timestamp : Nat
deriving Repr, DecidableEq

/-- Groth16 proof data (a, b, c) as passed to the contract entry points. -/
structure ProofData where
  a : Nat × Nat
  b : (Nat × Nat) × (Nat × Nat)
  c : Nat × Nat
deriving Repr, DecidableEq

/-- The uint256[3] public-input vector [deviceId, challenge, expectedHash]. -/
structure PubInputs where
  in0 : Nat
  in1 : Nat
  in2 : Nat
deriving Repr, DecidableEq

/-- The four event kinds declared by contracts/DeviceRegistry.sol. -/
inductive Event where
  | deviceRegistered (deviceId ts : Nat)
  | deviceDeactivated (deviceId ts : Nat)
  | authenticationAttempt (deviceId : Nat) (success : Bool)
  | transactionRecorded (deviceId dataHash ts : Nat)
deriving Repr, DecidableEq

/-- Revert reasons, one constructor per require message of the contract
(plus the Pausable and Ownable modifier failures).  alreadyRegistered is
the message Device already registered, deviceIdMismatch is Device ID
mismatch, invalidProof is Invalid proof, notActive is Device not active. -/
inductive RegistryError where
  | enforcedPause
  | alreadyRegistered
  | invalidDeviceId
  | invalidPubKeyHash
  | notActive
  | deviceIdMismatch
  | invalidProof
  | notOwner
deriving Repr, DecidableEq

/-- Storage of contracts/DeviceRegistry.sol: the two mappings, the global
counter, the Ownable owner and the Pausable flag. -/
structure RegistryState where
  paused : Bool
  owner : Nat
  devices : Nat → Device
  transactions : Nat → List EncryptedTransaction
  totalDevices : Nat

/-- State after the constructor: empty mappings, zero counter, unpaused. -/
def RegistryState.initial (initialOwner : Nat) : RegistryState :=
  { paused := false, owner := initialOwner,
    devices := fun _ => Device.default0,
    transactions := fun _ => [],
    totalDevices := 0 }

/-- registerDevice of contracts/DeviceRegistry.sol.  The requires run in
source order: whenNotPaused, already-registered check (registeredAt == 0),
zero deviceId, zero pubKeyHash; on success the Device record is written,
totalDevices is incremented and DeviceRegistered is emitted. -/
def registerDevice (s : RegistryState) (ts sender deviceId pubKeyHash : Nat)
    (helperData : List Nat) :
    Except RegistryError (RegistryState × List Event × Bool) :=
  if s.paused then .error .enforcedPause
  else if (s.devices deviceId).registeredAt = 0 then
    if deviceId ≠ 0 then
      if pubKeyHash ≠ 0 then
        .ok ({ s with
                devices := fun d =>
                  if d = deviceId then
                    { deviceId := deviceId, pubKeyHash := pubKeyHash,
                      helperData := helperData, registeredAt := ts,
                      isActive := true, owner := sender }
                  else s.devices d,
                totalDevices := s.totalDevices + 1 },
              [Event.deviceRegistered deviceId ts], true)
      else .error .invalidPubKeyHash
    else .error .invalidDeviceId
  else .error .alreadyRegistered

/-- authenticate of contracts/DeviceRegistry.sol.  Requires the device
active and input[0] == uint256(deviceId); then the verifier result is
emitted as AuthenticationAttempt and returned, whatever it is. -/
def authenticate (verify : ProofData → PubInputs → Bool) (s : RegistryState)
    (deviceId : Nat) (pf : ProofData) (input : PubInputs) :
    Except RegistryError (RegistryState × List Event × Bool) :=
  if s.paused then .error .enforcedPause
  else if (s.devices deviceId).isActive then
    if input.in0 = deviceId then
      .ok (s, [Event.authenticationAttempt deviceId (verify pf input)],
           verify pf input)
    else .error .deviceIdMismatch
  else .error .notActive

/-- recordTransaction of contracts/DeviceRegistry.sol.  Same active and
binding requires as authenticate, then require(isValid) gates the append
of an EncryptedTransaction and the TransactionRecorded event. -/
def recordTransaction (verify : ProofData → PubInputs → Bool)
    (s : RegistryState) (ts deviceId dataHash : Nat)
    (encryptedData : List Nat) (pf : ProofData) (input : PubInputs) :
    Except RegistryError (RegistryState × List Event × Bool) :=
  if s.paused then .error .enforcedPause
  else if (s.devices deviceId).isActive then
    if input.in0 = deviceId then
      if verify pf input then
        .ok ({ s with
                transactions := fun d =>
                  if d = deviceId then
                    s.transactions d ++
                      [{ deviceId := deviceId, dataHash := dataHash,
                         encryptedData := encryptedData, timestamp := ts }]
                  else s.transactions d },
              [Event.transactionRecorded deviceId dataHash ts], true)
      else .error .invalidProof
    else .error .deviceIdMismatch
  else .error .notActive

/-- getTransactionCount view of contracts/DeviceRegistry.sol. -/
def getTransactionCount (s : RegistryState) (deviceId : Nat) : Nat :=
  (s.transactions deviceId).length

/-- isDeviceRegistered view of contracts/DeviceRegistry.sol. -/
def isDeviceRegistered (s : RegistryState) (deviceId : Nat) : Bool :=
  decide ((s.devices deviceId).registeredAt ≠ 0)

/-- isDeviceActive view of contracts/DeviceRegistry.sol. -/
def isDeviceActive (s : RegistryState) (deviceId : Nat) : Bool :=
  (s.devices deviceId).isActive

/-- EVM revert semantics: a reverted call leaves the pre-state in place,
a successful call installs the returned state. -/
def execState (r : Except RegistryError (RegistryState × List Event × Bool))
    (s : RegistryState) : RegistryState :=
  match r with
  | .ok x => x.1
  | .error _ => s

/-- Events actually committed by a call: none when it reverts. -/
def emittedEvents
    (r : Except RegistryError (RegistryState × List Event × Bool)) :
    List Event :=
  match r with
  | .ok x => x.2.1
  | .error _ => []

/-- Modelled from the spec: contracts/DeviceRegistry.sol declares the
DeviceDeactivated event (line 34) but contains no deactivation entry
point; section 4.4 of the specification describes the missing operation:
deactivate(deviceId) is owner-privileged, sets active = false if the
device is currently Active, fails with NotActive otherwise, and emits
DeviceDeactivated on success.  This definition follows those words
exactly; it is not part of the source contract. -/
def deactivate (s : RegistryState) (ts sender deviceId : Nat) :
    Except RegistryError (RegistryState × List Event × Bool) :=
  if sender = s.owner then
    if (s.devices deviceId).isActive then
      .ok ({ s with
              devices := fun d =>
                if d = deviceId then { s.devices d with isActive := false }
                else s.devices d },
            [Event.deviceDeactivated deviceId ts], true)
    else .error .notActive
  else .error .notOwner

/-- The external entry points of the source contract (deactivate is not
among them: it does not exist in contracts/DeviceRegistry.sol).  The
verifier is carried inside the operation since it is an injected
collaborator, not registry state. -/
inductive RegistryOp where
  | register (ts sender deviceId pubKeyHash : Nat) (helperData : List Nat)
  | auth (verify : ProofData → PubInputs → Bool) (deviceId : Nat)
      (pf : ProofData) (input : PubInputs)
  | record (verify : ProofData → PubInputs → Bool) (ts deviceId dataHash : Nat)
      (encryptedData : List Nat) (pf : ProofData) (input : PubInputs)

/-- Apply one external call with revert semantics. -/
def applyOp (s : RegistryState) : RegistryOp → RegistryState
  | .register ts sender deviceId pubKeyHash helperData =>
      execState (registerDevice s ts sender deviceId pubKeyHash helperData) s
  | .auth verify deviceId pf input =>
      execState (authenticate verify s deviceId pf input) s
  | .record verify ts deviceId dataHash encryptedData pf input =>
      execState
        (recordTransaction verify s ts deviceId dataHash encryptedData pf input) s

/-- Environment assumption on a call: block.timestamp is positive on any
real chain (it is the Unix time of the enclosing block). -/
def goodOp : RegistryOp → Prop
  | .register ts _ _ _ _ => ts ≠ 0
  | .auth _ _ _ _ => True
  | .record _ _ _ _ _ _ _ => True

/-- The registry invariant: an active device is a registered device. -/
def registryInv (s : RegistryState) : Prop :=
  ∀ d, isDeviceActive s d = true → isDeviceRegistered s d = true

/- ----------------------------------------------------------------- -/
/- Proof cache (class ProofCache of scripts/run_experiments.js).      -/
/- ----------------------------------------------------------------- -/

/-- Cache payload stored per key by ProofCache.set: the proof, the public
signals and the Date.now() stamp taken at insertion. -/
structure CacheEntry where
  proof : ProofData
  publicSignals : List Nat
  timestamp : Nat
deriving Repr, DecidableEq

/-- getKey of ProofCache builds the string deviceId-challenge; for the
nonnegative integer ids and challenges used by the script this string is
in bijection with the pair, so the key is modelled as the pair itself. -/
def ProofCache.getKey (deviceId challenge : Nat) : Nat × Nat :=
  (deviceId, challenge)

/-- Lookup in the association list modelling the JS Map. -/
def cacheLookup (l : List ((Nat × Nat) × CacheEntry)) (k : Nat × Nat) :
    Option CacheEntry :=
  match l with
  | [] => none
  | (k1, e) :: rest => if k1 = k then some e else cacheLookup rest k

/-- Map.delete: removes the binding of the key (JS Map keys are unique;
set below maintains that uniqueness). -/
def cacheErase (l : List ((Nat × Nat) × CacheEntry)) (k : Nat × Nat) :
    List ((Nat × Nat) × CacheEntry) :=
  match l with
  | [] => []
  | (k1, e) :: rest =>
      if k1 = k then cacheErase rest k else (k1, e) :: cacheErase rest k

/-- class ProofCache of scripts/run_experiments.js: a Map plus the
timeout (ttl) in milliseconds, 300000 by default. -/
structure ProofCache where
  cache : List ((Nat × Nat) × CacheEntry)
  timeout : Nat
deriving Repr, DecidableEq

/-- ProofCache.set: inserts or replaces unconditionally, stamped with the
current time (Date.now() is passed explicitly as now). -/
def ProofCache.set (pc : ProofCache) (now deviceId challenge : Nat)
    (pf : ProofData) (publicSignals : List Nat) : ProofCache :=
  { pc with cache :=
      (ProofCache.getKey deviceId challenge,
       { proof := pf, publicSignals := publicSignals, timestamp := now }) ::
      cacheErase pc.cache (ProofCache.getKey deviceId challenge) }

/-- ProofCache.get: returns null on a missing key; on a hit it checks
now - entry.timestamp > timeout and, when the entry is stale, deletes it
and returns null (lazy expiration); otherwise it returns the entry.
The mutated cache is returned alongside the result. -/
def ProofCache.get (pc : ProofCache) (now deviceId challenge : Nat) :
    Option CacheEntry × ProofCache :=
  match cacheLookup pc.cache (ProofCache.getKey deviceId challenge) with
  | none => (none, pc)
  | some entry =>
      if now - entry.timestamp > pc.timeout then
        (none, { pc with cache :=
                  cacheErase pc.cache (ProofCache.getKey deviceId challenge) })
      else (some entry, pc)

/- ----------------------------------------------------------------- -/
/- Noise injection (addNoiseToResponse of test/experiments.js).       -/
/- ----------------------------------------------------------------- -/

/-- Binary digits of n, least significant first, empty for 0; the
building block of BigInt.toString(2). -/
def natToBitsAux (n : Nat) : List Bool :=
  if n = 0 then []
  else decide (n % 2 = 1) :: natToBitsAux (n / 2)
decreasing_by exact Nat.div_lt_self (Nat.pos_of_ne_zero (by assumption)) one_lt_two

/-- responseBigInt.toString(2).split(): the binary digit string, most
significant first, with no leading zeros, and the single digit 0 for the
value zero. -/
def natToBits (r : Nat) : List Bool :=
  if r = 0 then [false] else (natToBitsAux r).reverse

/-- BigInt(0b + responseBits.join()): parse a most-significant-first
digit list back to a number. -/
def bitsToNat (l : List Bool) : Nat :=
  l.foldl (fun acc b => 2 * acc + b.toNat) 0

/-- responseBits[index] = responseBits[index] === 0 ? 1 : 0, toggling the
digit at position index of the array. -/
def flipAt (l : List Bool) (i : Nat) : List Bool :=
  l.set i (! l.getD i false)

/-- The loop of addNoiseToResponse: apply one flip per drawn index. -/
def applyFlips (bits : List Bool) (draws : List Nat) : List Bool :=
  draws.foldl flipAt bits

/-- numBitsToFlip = Math.floor(responseBits.length * noiseLevel); the JS
number noiseLevel is modelled as a rational, and Math.floor of a
negative product maps to zero iterations of the loop, which Int.toNat
reproduces. -/
def numBitsToFlip (len : Nat) (noiseLevel : ℚ) : Nat :=
  (Int.floor ((len : ℚ) * noiseLevel)).toNat

/-- addNoiseToResponse of test/experiments.js.  The Math.random() draws
are supplied as the oracle list draws, each Math.floor(Math.random() *
responseBits.length), so each draw is an index below the digit-string
length; the loop consumes the first numBitsToFlip of them. -/
def addNoiseToResponse (r : Nat) (noiseLevel : ℚ) (draws : List Nat) : Nat :=
  bitsToNat (applyFlips (natToBits r)
    (draws.take (numBitsToFlip (natToBits r).length noiseLevel)))

/-- bitLength of a value as the specification uses the term: the length
of its binary digit string. -/
def bitLength (r : Nat) : Nat :=
  if r = 0 then 1 else Nat.log2 r + 1

/- ----------------------------------------------------------------- -/
/- PUF response, commitment and the DeviceAuth circuit statement.     -/
/- ----------------------------------------------------------------- -/

/-- generateResponse of utils/PUFSimulator.js: sha256 over the seed
concatenated with the deviceId-challenge key, reduced modulo maxField.
sha256 is external cryptography, abstracted as the digest parameter on
the seed and the two key components (the Map memoization caches a value
this formula already determines, so it is semantically transparent). -/
def generateResponse (digest : Nat → Nat → Nat → Nat)
    (seed deviceId challenge : Nat) : Nat :=
  digest seed deviceId challenge % maxField

/-- The Poseidon step of generateExpectedHash and of the circuit:
poseidon([x, y]) for a two-element input, abstracted as poseidon2.
The circuit computedHash is hasher.out with hasher.inputs[0] <== response
and hasher.inputs[1] <== challenge. -/
def circuitComputedHash (poseidon2 : Nat → Nat → Nat)
    (response challenge : Nat) : Nat :=
  poseidon2 response challenge

/-- generateExpectedHash of utils/PUFSimulator.js: the commitment
computed outside the proof, poseidon([response, challenge]) with the
response regenerated from (deviceId, challenge). -/
def generateExpectedHash (poseidon2 : Nat → Nat → Nat)
    (digest : Nat → Nat → Nat → Nat) (seed deviceId challenge : Nat) : Nat :=
  poseidon2 (generateResponse digest seed deviceId challenge) challenge

/-- The constraint system of circuits/templates/DeviceAuth.circom on an
assignment of its signals: the three Num2Bits(254) range checks on
deviceId, challenge and response, and the equation
computedHash === expectedHash with computedHash the Poseidon hash of
(response, challenge) in that wire order. -/
def deviceAuthConstraints (poseidon2 : Nat → Nat → Nat)
    (deviceId challenge expectedHash response : Nat) : Prop :=
  deviceId < 2 ^ 254 ∧ challenge < 2 ^ 254 ∧ response < 2 ^ 254 ∧
    circuitComputedHash poseidon2 response challenge = expectedHash

instance (poseidon2 : Nat → Nat → Nat) (d c h r : Nat) :
    Decidable (deviceAuthConstraints poseidon2 d c h r) :=
  inferInstanceAs (Decidable (_ ∧ _ ∧ _ ∧ _))

/- ----------------------------------------------------------------- -/
/- Concrete fixtures used to instantiate the theorems below.          -/
/- ----------------------------------------------------------------- -/

/-- A registered, active device record used in concrete instances. -/
def sampleDevice : Device :=
  { deviceId := 5, pubKeyHash := 9, helperData := [2], registeredAt := 3,
    isActive := true, owner := 1 }

/-- A registry holding exactly sampleDevice, reachable by one successful
registerDevice call at timestamp 3 from sender 1 on the fresh state. -/
def sampleState : RegistryState :=
  { paused := false, owner := 1,
    devices := fun d => if d = 5 then sampleDevice else Device.default0,
    transactions := fun _ => [],
    totalDevices := 1 }

/-- A placeholder Groth16 proof artifact for concrete instances. -/
def sampleProof : ProofData :=
  { a := (0, 1), b := ((2, 3), (4, 5)), c := (6, 7) }

/- ----------------------------------------------------------------- -/
/- Theorems.                                                          -/
/- ----------------------------------------------------------------- -/

/-- C2: for every active registered device whose publicInputs[0] equals
its deviceId, authenticate succeeds regardless of the verify outcome,
emits AuthenticationAttempt(deviceId, success) carrying the verify
result, returns that boolean, and leaves the state unchanged; an invalid
proof never makes the authenticate call itself fail. -/
theorem authenticate_reports_verify_outcome
    (verify : ProofData → PubInputs → Bool) (s : RegistryState)
    (deviceId : Nat) (pf : ProofData) (input : PubInputs)
    (hp : s.paused = false)
    (hreg : isDeviceRegistered s deviceId = true)
    (hact : isDeviceActive s deviceId = true)
    (hbind : input.in0 = deviceId) :
    authenticate verify s deviceId pf input =
      .ok (s, [Event.authenticationAttempt deviceId (verify pf input)],
           verify pf input) := by
  simp only [isDeviceActive] at hact
  simp [authenticate, hp, hact, hbind]

/-- Instance of C2 at a concrete registry, device and verifier, with a
verifier refusing every proof: the call still succeeds and reports
success = false. -/
theorem authenticate_reports_verify_outcome_instance :
    sampleState.paused = false ∧
    isDeviceRegistered sampleState 5 = true ∧
    isDeviceActive sampleState 5 = true ∧
    authenticate (fun _ _ => false) sampleState 5 sampleProof ⟨5, 11, 13⟩ =
      .ok (sampleState, [Event.authenticationAttempt 5 false], false) :=
  ⟨rfl, by decide, by decide,
   authenticate_reports_verify_outcome (fun _ _ => false) sampleState 5
     sampleProof ⟨5, 11, 13⟩ rfl (by decide) (by decide) rfl⟩

/-- C4: for every registered active device and every proof, if
publicInputs[0] differs from the claimed deviceId then authenticate
reverts with the Device ID mismatch error, commits no event and changes
no state, independently of the verifier outcome (the statement holds for
every verify function). -/
theorem authenticate_binding_mismatch
    (verify : ProofData → PubInputs → Bool) (s : RegistryState)
    (deviceId : Nat) (pf : ProofData) (input : PubInputs)
    (hp : s.paused = false)
    (hreg : isDeviceRegistered s deviceId = true)
    (hact : isDeviceActive s deviceId = true)
    (hbind : input.in0 ≠ deviceId) :
    authenticate verify s deviceId pf input = .error .deviceIdMismatch ∧
    emittedEvents (authenticate verify s deviceId pf input) = [] ∧
    execState (authenticate verify s deviceId pf input) s = s := by
  simp only [isDeviceActive] at hact
  simp [authenticate, hp, hact, hbind, emittedEvents, execState]

/-- Instance of C4 at a concrete registry with a verifier accepting
every proof: the mismatch still reverts. -/
theorem authenticate_binding_mismatch_instance :
    sampleState.paused = false ∧
    isDeviceRegistered sampleState 5 = true ∧
    isDeviceActive sampleState 5 = true ∧
    (⟨4, 11, 13⟩ : PubInputs).in0 ≠ 5 ∧
    (authenticate (fun _ _ => true) sampleState 5 sampleProof ⟨4, 11, 13⟩ =
        .error .deviceIdMismatch ∧
      emittedEvents
        (authenticate (fun _ _ => true) sampleState 5 sampleProof ⟨4, 11, 13⟩) =
        [] ∧
      execState
        (authenticate (fun _ _ => true) sampleState 5 sampleProof ⟨4, 11, 13⟩)
        sampleState = sampleState) :=
  ⟨rfl, by decide, by decide, by decide,
   authenticate_binding_mismatch (fun _ _ => true) sampleState 5 sampleProof
     ⟨4, 11, 13⟩ rfl (by decide) (by decide) (by decide)⟩

/-- C5: for every deviceId that is absent from the registry or whose
record is not active, authenticate reverts with the Device not active
error, commits no event and changes no state, for every verifier and
proof. -/
theorem authenticate_not_active
    (verify : ProofData → PubInputs → Bool) (s : RegistryState)
    (deviceId : Nat) (pf : ProofData) (input : PubInputs)
    (hp : s.paused = false)
    (hact : isDeviceActive s deviceId = false) :
    authenticate verify s deviceId pf input = .error .notActive ∧
    emittedEvents (authenticate verify s deviceId pf input) = [] ∧
    execState (authenticate verify s deviceId pf input) s = s := by
  simp only [isDeviceActive] at hact
  simp [authenticate, hp, hact, emittedEvents, execState]

/-- Instance of C5 at a deviceId never registered in the concrete
registry, with a verifier accepting every proof. -/
theorem authenticate_not_active_instance :
    sampleState.paused = false ∧
    isDeviceActive sampleState 6 = false ∧
    (authenticate (fun _ _ => true) sampleState 6 sampleProof ⟨6, 11, 13⟩ =
        .error .notActive ∧
      emittedEvents
        (authenticate (fun _ _ => true) sampleState 6 sampleProof ⟨6, 11, 13⟩) =
        [] ∧
      execState
        (authenticate (fun _ _ => true) sampleState 6 sampleProof ⟨6, 11, 13⟩)
        sampleState = sampleState) :=
  ⟨rfl, by decide,
   authenticate_not_active (fun _ _ => true) sampleState 6 sampleProof
     ⟨6, 11, 13⟩ rfl (by decide)⟩

/-- C1: for every active registered device whose publicInputs[0] equals
its deviceId, if verify returns false then recordTransaction reverts
with the Invalid proof error and the transaction log of the device and
all other registry state are unchanged; if verify returns true it
appends exactly one EncryptedTransaction, so the transaction count of
the device increases by exactly 1, every other log and all device state
is untouched, and TransactionRecorded is emitted. -/
theorem recordTransaction_proof_gate
    (verify : ProofData → PubInputs → Bool) (s : RegistryState)
    (ts deviceId dataHash : Nat) (encryptedData : List Nat)
    (pf : ProofData) (input : PubInputs)
    (hp : s.paused = false)
    (hreg : isDeviceRegistered s deviceId = true)
    (hact : isDeviceActive s deviceId = true)
    (hbind : input.in0 = deviceId) :
    (verify pf input = false →
      recordTransaction verify s ts deviceId dataHash encryptedData pf input =
        .error .invalidProof ∧
      execState
        (recordTransaction verify s ts deviceId dataHash encryptedData pf input)
        s = s ∧
      emittedEvents
        (recordTransaction verify s ts deviceId dataHash encryptedData pf input)
        = []) ∧
    (verify pf input = true →
      ∃ s1,
        recordTransaction verify s ts deviceId dataHash encryptedData pf input =
          .ok (s1, [Event.transactionRecorded deviceId dataHash ts], true) ∧
        s1.transactions deviceId =
          s.transactions deviceId ++
            [{ deviceId := deviceId, dataHash := dataHash,
               encryptedData := encryptedData, timestamp := ts }] ∧
        getTransactionCount s1 deviceId = getTransactionCount s deviceId + 1 ∧
        (∀ d, d ≠ deviceId → s1.transactions d = s.transactions d) ∧
        s1.devices = s.devices ∧
        s1.totalDevices = s.totalDevices ∧
        s1.paused = s.paused ∧
        s1.owner = s.owner) := by
  simp only [isDeviceActive] at hact
  constructor
  · intro hv
    simp [recordTransaction, hp, hact, hbind, hv, execState, emittedEvents]
  · intro hv
    refine ⟨{ s with transactions := fun d =>
        if d = deviceId then
          s.transactions d ++
            [{ deviceId := deviceId, dataHash := dataHash,
               encryptedData := encryptedData, timestamp := ts }]
        else s.transactions d }, ?_, ?_, ?_, ?_, rfl, rfl, rfl, rfl⟩
    · simp [recordTransaction, hp, hact, hbind, hv]
    · simp
    · simp [getTransactionCount]
    · intro d hd
      simp [hd]

/-- Instance of C1 at a concrete registry and device, once with a
rejecting and once with an accepting verifier. -/
theorem recordTransaction_proof_gate_instance :
    sampleState.paused = false ∧
    isDeviceRegistered sampleState 5 = true ∧
    isDeviceActive sampleState 5 = true ∧
    (recordTransaction (fun _ _ => false) sampleState 7 5 21 [3] sampleProof
        ⟨5, 11, 13⟩ = .error .invalidProof ∧
      execState
        (recordTransaction (fun _ _ => false) sampleState 7 5 21 [3] sampleProof
          ⟨5, 11, 13⟩) sampleState = sampleState ∧
      emittedEvents
        (recordTransaction (fun _ _ => false) sampleState 7 5 21 [3] sampleProof
          ⟨5, 11, 13⟩) = []) ∧
    (∃ s1,
      recordTransaction (fun _ _ => true) sampleState 7 5 21 [3] sampleProof
          ⟨5, 11, 13⟩ =
        .ok (s1, [Event.transactionRecorded 5 21 7], true) ∧
      s1.transactions 5 =
        sampleState.transactions 5 ++
          [{ deviceId := 5, dataHash := 21, encryptedData := [3],
             timestamp := 7 }] ∧
      getTransactionCount s1 5 = getTransactionCount sampleState 5 + 1 ∧
      (∀ d, d ≠ 5 → s1.transactions d = sampleState.transactions d) ∧
      s1.devices = sampleState.devices ∧
      s1.totalDevices = sampleState.totalDevices ∧
      s1.paused = sampleState.paused ∧
      s1.owner = sampleState.owner) :=
  ⟨rfl, by decide, by decide,
   (recordTransaction_proof_gate (fun _ _ => false) sampleState 7 5 21 [3]
      sampleProof ⟨5, 11, 13⟩ rfl (by decide) (by decide) rfl).1 rfl,
   (recordTransaction_proof_gate (fun _ _ => true) sampleState 7 5 21 [3]
      sampleProof ⟨5, 11, 13⟩ rfl (by decide) (by decide) rfl).2 rfl⟩

/-- C3: a successful registerDevice call creates an active registered
device stamped with the block timestamp, increments the global device
counter by one, leaves every transaction log alone and emits
DeviceRegistered; and afterwards every further registerDevice call for
the same deviceId — whatever its arguments — reverts with the Device
already registered error and leaves the whole registry state, the
transaction logs and the counter unchanged.  The timestamp hypothesis
reflects that block.timestamp is positive on any real chain. -/
theorem registerDevice_no_overwrite
    (s s1 : RegistryState) (ts sender deviceId pubKeyHash : Nat)
    (helperData : List Nat) (evs : List Event) (rv : Bool)
    (hts : ts ≠ 0)
    (h1 : registerDevice s ts sender deviceId pubKeyHash helperData =
      .ok (s1, evs, rv)) :
    isDeviceRegistered s1 deviceId = true ∧
    isDeviceActive s1 deviceId = true ∧
    (s1.devices deviceId).registeredAt = ts ∧
    s1.totalDevices = s.totalDevices + 1 ∧
    s1.transactions = s.transactions ∧
    evs = [Event.deviceRegistered deviceId ts] ∧
    ∀ ts2 sender2 pubKeyHash2 helperData2,
      registerDevice s1 ts2 sender2 deviceId pubKeyHash2 helperData2 =
        .error .alreadyRegistered ∧
      execState
        (registerDevice s1 ts2 sender2 deviceId pubKeyHash2 helperData2) s1 =
        s1 ∧
      emittedEvents
        (registerDevice s1 ts2 sender2 deviceId pubKeyHash2 helperData2) =
        [] := by
  rw [registerDevice] at h1
  split_ifs at h1 with hpause hfresh hid hkey
  simp only [Except.ok.injEq, Prod.mk.injEq] at h1
  obtain ⟨hs1, hevs, hrv⟩ := h1
  subst hs1
  subst hevs
  refine ⟨by simp [isDeviceRegistered, hts], by simp [isDeviceActive], by simp,
    rfl, rfl, rfl, ?_⟩
  intro ts2 sender2 pubKeyHash2 helperData2
  have hreg2 :
      registerDevice
        { s with
          devices := fun d =>
            if d = deviceId then
              { deviceId := deviceId, pubKeyHash := pubKeyHash,
                helperData := helperData, registeredAt := ts,
                isActive := true, owner := sender }
            else s.devices d,
          totalDevices := s.totalDevices + 1 }
        ts2 sender2 deviceId pubKeyHash2 helperData2 =
        .error .alreadyRegistered := by
    rw [registerDevice]
    simp [hpause, hts]
  exact ⟨hreg2, by rw [hreg2]; rfl, by rw [hreg2]; rfl⟩

/-- Instance of C3: registering device 5 on the fresh registry at
timestamp 3 succeeds, and the duplicate registration reverts. -/
theorem registerDevice_no_overwrite_instance :
    (3 : Nat) ≠ 0 ∧
    registerDevice (RegistryState.initial 1) 3 1 5 9 [2] =
      .ok (execState (registerDevice (RegistryState.initial 1) 3 1 5 9 [2])
             (RegistryState.initial 1),
           [Event.deviceRegistered 5 3], true) ∧
    (isDeviceRegistered
        (execState (registerDevice (RegistryState.initial 1) 3 1 5 9 [2])
          (RegistryState.initial 1)) 5 = true ∧
      isDeviceActive
        (execState (registerDevice (RegistryState.initial 1) 3 1 5 9 [2])
          (RegistryState.initial 1)) 5 = true ∧
      ((execState (registerDevice (RegistryState.initial 1) 3 1 5 9 [2])
          (RegistryState.initial 1)).devices 5).registeredAt = 3 ∧
      (execState (registerDevice (RegistryState.initial 1) 3 1 5 9 [2])
          (RegistryState.initial 1)).totalDevices =
        (RegistryState.initial 1).totalDevices + 1 ∧
      (execState (registerDevice (RegistryState.initial 1) 3 1 5 9 [2])
          (RegistryState.initial 1)).transactions =
        (RegistryState.initial 1).transactions ∧
      [Event.deviceRegistered 5 3] = [Event.deviceRegistered 5 3] ∧
      ∀ ts2 sender2 pubKeyHash2 helperData2,
        registerDevice
            (execState (registerDevice (RegistryState.initial 1) 3 1 5 9 [2])
              (RegistryState.initial 1))
            ts2 sender2 5 pubKeyHash2 helperData2 =
          .error .alreadyRegistered ∧
        execState
            (registerDevice
              (execState (registerDevice (RegistryState.initial 1) 3 1 5 9 [2])
                (RegistryState.initial 1))
              ts2 sender2 5 pubKeyHash2 helperData2)
            (execState (registerDevice (RegistryState.initial 1) 3 1 5 9 [2])
              (RegistryState.initial 1)) =
          execState (registerDevice (RegistryState.initial 1) 3 1 5 9 [2])
            (RegistryState.initial 1) ∧
        emittedEvents
            (registerDevice
              (execState (registerDevice (RegistryState.initial 1) 3 1 5 9 [2])
                (RegistryState.initial 1))
              ts2 sender2 5 pubKeyHash2 helperData2) =
          []) :=
  ⟨by decide, rfl,
   registerDevice_no_overwrite (RegistryState.initial 1)
     (execState (registerDevice (RegistryState.initial 1) 3 1 5 9 [2])
       (RegistryState.initial 1))
     3 1 5 9 [2] [Event.deviceRegistered 5 3] true (by decide) rfl⟩

/-- C7: the deactivate operation (modelled from the spec, the source
contract declares only the DeviceDeactivated event) is owner-gated: a
non-owner caller is refused; the owner deactivating an active device
succeeds, clears the active flag, touches nothing else and emits
DeviceDeactivated; deactivating a device that is not active fails with
the not-active error. -/
theorem deactivate_owner_gated (s : RegistryState) (ts sender deviceId : Nat) :
    (sender ≠ s.owner → deactivate s ts sender deviceId = .error .notOwner) ∧
    (sender = s.owner → isDeviceActive s deviceId = false →
      deactivate s ts sender deviceId = .error .notActive) ∧
    (sender = s.owner → isDeviceActive s deviceId = true →
      ∃ s1,
        deactivate s ts sender deviceId =
          .ok (s1, [Event.deviceDeactivated deviceId ts], true) ∧
        isDeviceActive s1 deviceId = false ∧
        isDeviceRegistered s1 deviceId = isDeviceRegistered s deviceId ∧
        (∀ d, d ≠ deviceId → s1.devices d = s.devices d) ∧
        s1.transactions = s.transactions ∧
        s1.totalDevices = s.totalDevices ∧
        s1.owner = s.owner ∧
        s1.paused = s.paused) := by
  refine ⟨?_, ?_, ?_⟩
  · intro hown
    simp [deactivate, hown]
  · intro hown hact
    simp only [isDeviceActive] at hact
    simp [deactivate, hown, hact]
  · intro hown hact
    simp only [isDeviceActive] at hact
    refine ⟨{ s with devices := fun d =>
        if d = deviceId then { s.devices d with isActive := false }
        else s.devices d }, ?_, ?_, ?_, ?_, rfl, rfl, rfl, rfl⟩
    · simp [deactivate, hown, hact]
    · simp [isDeviceActive]
    · simp [isDeviceRegistered]
    · intro d hd
      simp [hd]

/-- Instance of C7 at the concrete registry: a stranger is refused, the
owner deactivates the active device 5, and deactivating the absent
device 6 fails with the not-active error. -/
theorem deactivate_owner_gated_instance :
    ((2 : Nat) ≠ sampleState.owner ∧
      deactivate sampleState 8 2 5 = .error .notOwner) ∧
    ((1 : Nat) = sampleState.owner ∧ isDeviceActive sampleState 6 = false ∧
      deactivate sampleState 8 1 6 = .error .notActive) ∧
    ((1 : Nat) = sampleState.owner ∧ isDeviceActive sampleState 5 = true ∧
      ∃ s1,
        deactivate sampleState 8 1 5 =
          .ok (s1, [Event.deviceDeactivated 5 8], true) ∧
        isDeviceActive s1 5 = false ∧
        isDeviceRegistered s1 5 = isDeviceRegistered sampleState 5 ∧
        (∀ d, d ≠ 5 → s1.devices d = sampleState.devices d) ∧
        s1.transactions = sampleState.transactions ∧
        s1.totalDevices = sampleState.totalDevices ∧
        s1.owner = sampleState.owner ∧
        s1.paused = sampleState.paused) :=
  ⟨⟨by decide, (deactivate_owner_gated sampleState 8 2 5).1 (by decide)⟩,
   ⟨by decide, by decide,
    (deactivate_owner_gated sampleState 8 1 6).2.1 (by decide) (by decide)⟩,
   ⟨by decide, by decide,
    (deactivate_owner_gated sampleState 8 1 5).2.2 (by decide) (by decide)⟩⟩

/-- Devices-preserving steps preserve the registry invariant and the
per-device views, since both views read only the devices mapping. -/
theorem registryInv_of_devices_eq (s s2 : RegistryState)
    (h : s2.devices = s.devices) (hinv : registryInv s) : registryInv s2 := by
  intro d
  simp only [isDeviceActive, isDeviceRegistered, h]
  exact fun ha => hinv d ha

/-- C10: every external call of the source contract preserves the
invariant that an active device is a registered device, and never
unregisters or deactivates a registered device: registration is the only
write to the devices mapping and no entry point of the contract clears
the active flag.  The goodOp hypothesis is the positive block.timestamp
of any real chain. -/
theorem registry_active_implies_registered_preserved
    (s : RegistryState) (op : RegistryOp)
    (hgood : goodOp op) (hinv : registryInv s) :
    registryInv (applyOp s op) ∧
    ∀ d,
      (isDeviceRegistered s d = true →
        isDeviceRegistered (applyOp s op) d = true) ∧
      (isDeviceActive s d = true → isDeviceActive (applyOp s op) d = true) := by
  cases op with
  | auth verify deviceId pf input =>
    have hdev : (applyOp s (.auth verify deviceId pf input)).devices =
        s.devices := by
      simp only [applyOp, authenticate]
      split_ifs <;> rfl
    refine ⟨registryInv_of_devices_eq s _ hdev hinv, ?_⟩
    intro d
    simp only [isDeviceActive, isDeviceRegistered, hdev]
    exact ⟨id, id⟩
  | record verify ts deviceId dataHash encryptedData pf input =>
    have hdev :
        (applyOp s (.record verify ts deviceId dataHash encryptedData pf
          input)).devices = s.devices := by
      simp only [applyOp, recordTransaction]
      split_ifs <;> rfl
    refine ⟨registryInv_of_devices_eq s _ hdev hinv, ?_⟩
    intro d
    simp only [isDeviceActive, isDeviceRegistered, hdev]
    exact ⟨id, id⟩
  | register ts sender deviceId pubKeyHash helperData =>
    have hts : ts ≠ 0 := hgood
    simp only [applyOp, registerDevice]
    split_ifs with hpause hfresh hid hkey
    all_goals try exact ⟨hinv, fun d => ⟨id, id⟩⟩
    simp only [execState]
    constructor
    · intro d
      by_cases hd : d = deviceId
      · subst hd
        simp [isDeviceActive, isDeviceRegistered, hts]
      · simp only [isDeviceActive, isDeviceRegistered, hd, if_neg hd]
        exact hinv d
    · intro d
      by_cases hd : d = deviceId
      · subst hd
        constructor
        · intro hr
          simp [isDeviceRegistered] at hr
          exact absurd hfresh hr
        · intro ha
          have := hinv d ha
          simp [isDeviceRegistered] at this
          exact absurd hfresh this
      · simp only [isDeviceActive, isDeviceRegistered, if_neg hd]
        exact ⟨id, id⟩

/-- The concrete registry satisfies the invariant. -/
theorem sampleState_inv : registryInv sampleState := by
  intro d ha
  by_cases hd : d = 5
  · subst hd
    decide
  · exfalso
    simp [isDeviceActive, sampleState, Device.default0, hd] at ha

/-- Instance of C10 at the concrete registry and a concrete registration
step with positive timestamp. -/
theorem registry_active_implies_registered_preserved_instance :
    goodOp (.register 4 7 6 9 []) ∧ registryInv sampleState ∧
    (registryInv (applyOp sampleState (.register 4 7 6 9 [])) ∧
      ∀ d,
        (isDeviceRegistered sampleState d = true →
          isDeviceRegistered (applyOp sampleState (.register 4 7 6 9 [])) d =
            true) ∧
        (isDeviceActive sampleState d = true →
          isDeviceActive (applyOp sampleState (.register 4 7 6 9 [])) d =
            true)) :=
  ⟨by simp [goodOp], sampleState_inv,
   registry_active_implies_registered_preserved sampleState
     (.register 4 7 6 9 []) (by simp [goodOp]) sampleState_inv⟩

/-- Map.delete really removes the binding of the key. -/
theorem cacheLookup_cacheErase (l : List ((Nat × Nat) × CacheEntry))
    (k : Nat × Nat) : cacheLookup (cacheErase l k) k = none := by
  induction l with
  | nil => rfl
  | cons hd tl ih =>
    obtain ⟨k1, e⟩ := hd
    by_cases hk : k1 = k
    · simp [cacheErase, hk, ih]
    · simp [cacheErase, cacheLookup, hk, ih]

/-- C8: lazy expiration of the proof cache.  First conjunct: get never
returns an entry whose age now - timestamp exceeds the ttl.  Second
conjunct: when the stored entry for the key has expired at the time of
the get call, get returns none and the entry has been evicted — a
further lookup of the key in the returned cache misses. -/
theorem cache_get_lazy_expiration (pc : ProofCache)
    (now deviceId challenge : Nat) :
    (∀ e, (pc.get now deviceId challenge).1 = some e →
      now - e.timestamp ≤ pc.timeout) ∧
    (∀ e,
      cacheLookup pc.cache (ProofCache.getKey deviceId challenge) = some e →
      now - e.timestamp > pc.timeout →
      (pc.get now deviceId challenge).1 = none ∧
      cacheLookup (pc.get now deviceId challenge).2.cache
        (ProofCache.getKey deviceId challenge) = none) := by
  constructor
  · intro e he
    rw [ProofCache.get] at he
    rcases hl : cacheLookup pc.cache (ProofCache.getKey deviceId challenge) with
      _ | e1
    · rw [hl] at he
      simp at he
    · rw [hl] at he
      by_cases hexp : now - e1.timestamp > pc.timeout
      · simp [hexp] at he
      · simp [hexp] at he
        subst he
        omega
  · intro e hl hexp
    simp [ProofCache.get, hl, hexp, cacheLookup_cacheErase]

/-- Instance of C8: a cache holding one entry of age 31 against a ttl of
30 returns none and evicts it. -/
theorem cache_get_lazy_expiration_instance :
    cacheLookup
        (ProofCache.set { cache := [], timeout := 30 } 10 5 11 sampleProof
          [5, 11, 13]).cache (ProofCache.getKey 5 11) =
      some { proof := sampleProof, publicSignals := [5, 11, 13],
             timestamp := 10 } ∧
    (41 : Nat) - 10 > 30 ∧
    ((ProofCache.set { cache := [], timeout := 30 } 10 5 11 sampleProof
        [5, 11, 13]).get 41 5 11).1 = none ∧
    cacheLookup
        ((ProofCache.set { cache := [], timeout := 30 } 10 5 11 sampleProof
          [5, 11, 13]).get 41 5 11).2.cache (ProofCache.getKey 5 11) =
      none :=
  ⟨by decide, by decide,
   (cache_get_lazy_expiration
      (ProofCache.set { cache := [], timeout := 30 } 10 5 11 sampleProof
        [5, 11, 13]) 41 5 11).2
     { proof := sampleProof, publicSignals := [5, 11, 13], timestamp := 10 }
     (by decide) (by decide)⟩

/-- C6: the commitment computed outside the proof by generateExpectedHash
is Poseidon over (response, challenge) in exactly the wire order the
circuit re-evaluates: the externally computed commitment equals the
computedHash signal of the circuit at the same response and challenge
(first conjunct, for every Poseidon instance, digest and inputs); an
in-range assignment satisfies the circuit exactly when its expectedHash
public input equals that hash (second conjunct); and a satisfying
assignment stops satisfying the constraints as soon as the commitment is
replaced by any different value, so a proof bound to one commitment
cannot verify against another (third conjunct). -/
theorem commit_matches_circuit :
    (∀ (poseidon2 : Nat → Nat → Nat) (digest : Nat → Nat → Nat → Nat)
        (seed deviceId challenge : Nat),
      generateExpectedHash poseidon2 digest seed deviceId challenge =
        circuitComputedHash poseidon2
          (generateResponse digest seed deviceId challenge) challenge) ∧
    (∀ (poseidon2 : Nat → Nat → Nat) (deviceId challenge expectedHash
        response : Nat),
      deviceId < 2 ^ 254 → challenge < 2 ^ 254 → response < 2 ^ 254 →
      (deviceAuthConstraints poseidon2 deviceId challenge expectedHash
          response ↔
        expectedHash = circuitComputedHash poseidon2 response challenge)) ∧
    (∀ (poseidon2 : Nat → Nat → Nat) (deviceId challenge expectedHash
        response : Nat),
      deviceAuthConstraints poseidon2 deviceId challenge expectedHash
        response →
      ∀ expectedHash2, expectedHash2 ≠ expectedHash →
        ¬ deviceAuthConstraints poseidon2 deviceId challenge expectedHash2
            response) := by
  refine ⟨fun _ _ _ _ _ => rfl, ?_, ?_⟩
  · intro poseidon2 deviceId challenge expectedHash response hd hc hr
    unfold deviceAuthConstraints
    constructor
    · rintro ⟨-, -, -, heq⟩
      exact heq.symm
    · intro heq
      exact ⟨hd, hc, hr, heq.symm⟩
  · rintro poseidon2 deviceId challenge expectedHash response
      ⟨hd, hc, hr, heq⟩ expectedHash2 hne ⟨-, -, -, heq2⟩
    exact hne (heq2.symm.trans heq)

/-- Instance of C6 at a concrete (non-commutative) stand-in for Poseidon
and concrete inputs: the external commitment matches the circuit hash,
the in-range assignment satisfies the circuit at that hash, and the same
assignment is rejected at a different hash. -/
theorem commit_matches_circuit_instance :
    generateExpectedHash (fun a b => 2 * a + b) (fun s d c => s + d + c) 1 2 3 =
      circuitComputedHash (fun a b => 2 * a + b)
        (generateResponse (fun s d c => s + d + c) 1 2 3) 3 ∧
    ((2 : Nat) < 2 ^ 254 ∧ (3 : Nat) < 2 ^ 254 ∧ (6 : Nat) < 2 ^ 254 ∧
      (deviceAuthConstraints (fun a b => 2 * a + b) 2 3 15 6 ↔
        (15 : Nat) = circuitComputedHash (fun a b => 2 * a + b) 6 3)) ∧
    (deviceAuthConstraints (fun a b => 2 * a + b) 2 3 15 6 ∧ (16 : Nat) ≠ 15 ∧
      ¬ deviceAuthConstraints (fun a b => 2 * a + b) 2 3 16 6) :=
  ⟨commit_matches_circuit.1 (fun a b => 2 * a + b) (fun s d c => s + d + c)
     1 2 3,
   ⟨by norm_num, by norm_num, by norm_num,
    commit_matches_circuit.2.1 (fun a b => 2 * a + b) 2 3 15 6 (by norm_num)
      (by norm_num) (by norm_num)⟩,
   ⟨by constructor <;> norm_num [circuitComputedHash], by decide,
    commit_matches_circuit.2.2 (fun a b => 2 * a + b) 2 3 15 6
      (by constructor <;> norm_num [circuitComputedHash]) 16 (by decide)⟩⟩

/-- Appending one digit to the string multiplies the parsed value by two
and adds the digit. -/
theorem bitsToNat_append (l : List Bool) (b : Bool) :
    bitsToNat (l ++ [b]) = 2 * bitsToNat l + b.toNat := by
  simp [bitsToNat, List.foldl_append]

/-- Parsing the reversed digit list of n gives back n. -/
theorem bitsToNat_natToBitsAux_reverse (n : Nat) :
    bitsToNat (natToBitsAux n).reverse = n := by
  induction n using Nat.strong_induction_on with
  | _ n ih =>
    rw [natToBitsAux]
    by_cases h : n = 0
    · simp [h, bitsToNat]
    · rw [if_neg h, List.reverse_cons, bitsToNat_append,
        ih (n / 2) (Nat.div_lt_self (Nat.pos_of_ne_zero h) one_lt_two)]
      rcases Nat.mod_two_eq_zero_or_one n with h2 | h2 <;> simp [h2] <;> omega

/-- BigInt round trip: parsing the toString(2) digit string gives back
the value, also through flipped-and-restored digits. -/
theorem bitsToNat_natToBits (r : Nat) : bitsToNat (natToBits r) = r := by
  by_cases h : r = 0
  · simp [h, natToBits, bitsToNat]
  · simp [natToBits, h, bitsToNat_natToBitsAux_reverse]

/-- The digit list of a nonzero value has log2 n + 1 digits. -/
theorem natToBitsAux_length (n : Nat) (h : n ≠ 0) :
    (natToBitsAux n).length = Nat.log2 n + 1 := by
  induction n using Nat.strong_induction_on with
  | _ n ih =>
    rw [natToBitsAux, if_neg h]
    by_cases h2 : n / 2 = 0
    · have hn1 : n = 1 := by omega
      subst hn1
      simp [natToBitsAux, Nat.log2]
    · have hge : n ≥ 2 := by omega
      have hlog : Nat.log2 n = Nat.log2 (n / 2) + 1 := by
        conv_lhs => rw [Nat.log2]
        rw [if_pos hge]
      rw [List.length_cons,
        ih (n / 2) (Nat.div_lt_self (Nat.pos_of_ne_zero h) one_lt_two) h2,
        hlog]

/-- The toString(2) digit-string length is the bitLength of the value. -/
theorem natToBits_length (r : Nat) : (natToBits r).length = bitLength r := by
  by_cases h : r = 0
  · simp [h, natToBits, bitLength]
  · simp [natToBits, h, bitLength, natToBitsAux_length r h]

/-- Toggling a digit keeps the string length. -/
theorem flipAt_length (l : List Bool) (i : Nat) :
    (flipAt l i).length = l.length := by
  simp [flipAt]

/-- The flip loop keeps the string length. -/
theorem foldl_flipAt_length (draws : List Nat) :
    ∀ bits : List Bool, (List.foldl flipAt bits draws).length = bits.length := by
  induction draws with
  | nil => intro bits; rfl
  | cons d tl ih =>
    intro bits
    rw [List.foldl_cons, ih (flipAt bits d), flipAt_length]

/-- Toggling an in-range digit twice restores the string. -/
theorem flipAt_flipAt (l : List Bool) :
    ∀ i, i < l.length → flipAt (flipAt l i) i = l := by
  induction l with
  | nil =>
    intro i h
    exact absurd h (by simp)
  | cons a t ih =>
    intro i h
    cases i with
    | zero => simp [flipAt]
    | succ j =>
      have hj : j < t.length := by simpa using h
      have hstep : ∀ (b : Bool) (u : List Bool) (m : Nat),
          flipAt (b :: u) (m + 1) = b :: flipAt u m := fun _ _ _ => rfl
      rw [hstep, hstep, ih j hj]

/-- Two consecutive draws of the same in-range index cancel inside the
flip loop. -/
theorem applyFlips_cancel (bits : List Bool) (pre post : List Nat) (i : Nat)
    (h : i < bits.length) :
    applyFlips bits (pre ++ i :: i :: post) = applyFlips bits (pre ++ post) := by
  unfold applyFlips
  rw [List.foldl_append, List.foldl_append, List.foldl_cons, List.foldl_cons,
    flipAt_flipAt (List.foldl flipAt bits pre) i
      (by rw [foldl_flipAt_length]; exact h)]

/-- Math.floor(len * 0) = 0: a zero noise level draws no flips. -/
theorem numBitsToFlip_zero (len : Nat) : numBitsToFlip len 0 = 0 := by
  simp [numBitsToFlip]

/-- Math.floor(len * 1) = len: a full noise level draws one flip per
available digit position. -/
theorem numBitsToFlip_one (len : Nat) : numBitsToFlip len 1 = len := by
  simp [numBitsToFlip]

/-- C9: behaviour of addNoiseToResponse.  Conjunct 1: noise level 0 is
the identity transform on every response and every random draw sequence.
Conjunct 2: the available bit positions are exactly bitLength(response)
many.  Conjunct 3: when the draw sequence is long enough the loop
consumes exactly floor(bitLength(response) * noiseLevel) draws, one flip
per draw.  Conjuncts 4 and 5: flips at repeated indices cancel, single
flips and inside a draw sequence.  Conjunct 6: noise level 1 draws one
flip per available bit position. -/
theorem addNoiseToResponse_spec :
    (∀ (r : Nat) (draws : List Nat), addNoiseToResponse r 0 draws = r) ∧
    (∀ r : Nat, (natToBits r).length = bitLength r) ∧
    (∀ (r : Nat) (q : ℚ) (draws : List Nat),
      numBitsToFlip (bitLength r) q ≤ draws.length →
      (draws.take (numBitsToFlip (natToBits r).length q)).length =
        numBitsToFlip (bitLength r) q) ∧
    (∀ (bits : List Bool) (i : Nat), i < bits.length →
      flipAt (flipAt bits i) i = bits) ∧
    (∀ (bits : List Bool) (pre post : List Nat) (i : Nat), i < bits.length →
      applyFlips bits (pre ++ i :: i :: post) = applyFlips bits (pre ++ post)) ∧
    (∀ len : Nat, numBitsToFlip len 1 = len) := by
  refine ⟨?_, natToBits_length, ?_, flipAt_flipAt, applyFlips_cancel,
    numBitsToFlip_one⟩
  · intro r draws
    simp [addNoiseToResponse, numBitsToFlip_zero, applyFlips,
      bitsToNat_natToBits]
  · intro r q draws hlen
    rw [natToBits_length, List.length_take, Nat.min_eq_left hlen]

/-- Instance of C9 at concrete values: zero noise level on response 5
with draws available is the identity; a double draw of index 1 on a
3-digit string cancels; full noise level on the 3-digit string of
response 5 draws 3 flips. -/
theorem addNoiseToResponse_spec_instance :
    addNoiseToResponse 5 0 [0, 1] = 5 ∧
    ((1 : Nat) < 3 ∧
      applyFlips [true, false, true] ([0] ++ 1 :: 1 :: [2]) =
        applyFlips [true, false, true] ([0] ++ [2])) ∧
    ((numBitsToFlip (bitLength 5) 1 ≤ ([0, 1, 2] : List Nat).length) ∧
      (([0, 1, 2] : List Nat).take
          (numBitsToFlip (natToBits 5).length 1)).length =
        numBitsToFlip (bitLength 5) 1) :=
  ⟨addNoiseToResponse_spec.1 5 [0, 1],
   ⟨by decide,
    addNoiseToResponse_spec.2.2.2.2.1 [true, false, true] [0] [2] 1
      (by decide)⟩,
   ⟨by rw [numBitsToFlip_one]; simp [bitLength, Nat.log2],
    addNoiseToResponse_spec.2.2.1 5 1 [0, 1, 2]
      (by rw [numBitsToFlip_one]; simp [bitLength, Nat.log2])⟩⟩
